import Mathlib

/-!
Verification of the Survey-Rudraram ingestion/normalization/validation/sync
pipeline (backend-python/dashboard_app).  The Python services are shallowly
embedded: pandas cell values become `RawVal`, Python floats become `PyFloat`
(rationals plus nan/inf markers), functions that may raise become
`Except PyErr`-valued computations whose `try/except` blocks are explicit
catch wrappers, and the Redis cache / Supabase store become explicit state
threaded through the functions.
-/

namespace Rudraram

/-- Python float values: a finite value (modelled as an exact rational) or
one of the non-finite IEEE specials. -/
inductive PyFloat where
  | finite (q : ℚ)
  | nan
  | inf
  | ninf
deriving DecidableEq, Repr

/-- A raw spreadsheet cell value as seen by the pipeline after pandas
parsing: missing/None, pandas NaN, a string, an int, a float, or a bool. -/
inductive RawVal where
  | none
  | nan
  | str (s : String)
  | int (n : ℤ)
  | float (f : PyFloat)
  | bool (b : Bool)
deriving DecidableEq, Repr

/-- Python exception kinds relevant to the sanitizers: `float()` raises
`ValueError`, arithmetic on bad types raises `TypeError`, `int()` on an
infinity raises `OverflowError`. -/
inductive PyErr where
  | valueError
  | typeError
  | overflowError
deriving DecidableEq, Repr

/-- `pd.isna(value) or value is None`: true for None, pandas NaN and float NaN. -/
def pdIsna : RawVal → Bool
  | .none => true
  | .nan => true
  | .float .nan => true
  | _ => false

/-- Model of Python `str.lower()` (character-wise, via the char table). -/
def strLower (s : String) : String := ⟨s.data.map Char.toLower⟩

/-- Model of Python `str.strip()`: drop whitespace from both ends. -/
def strTrim (s : String) : String :=
  ⟨((s.data.dropWhile Char.isWhitespace).reverse.dropWhile Char.isWhitespace).reverse⟩

/-- Digits of the decimal expansion of a fractional part `0 ≤ x < 1`,
emitted until the expansion terminates or the fuel runs out. -/
def fracDigits : ℚ → ℕ → String
  | _, 0 => ""
  | x, fuel + 1 =>
    if x = 0 then ""
    else
      let y := x * 10
      let d := y.floor.toNat
      toString d ++ fracDigits (y - (d : ℚ)) fuel

/-- Model of Python `str(float)` for finite values in the plain decimal
range: integral values print as `d.0`, terminating decimals print all their
digits.  (Python's scientific notation for very large/small magnitudes and
the shortest-roundtrip rule for non-terminating binary fractions are outside
the range exercised by this codebase's messages.) -/
def decimalRepr (q : ℚ) : String :=
  let sign := if q < 0 then "-" else ""
  let a := |q|
  let ip := a.floor.toNat
  let frac := a - (ip : ℚ)
  if frac = 0 then sign ++ toString ip ++ ".0"
  else sign ++ toString ip ++ "." ++ fracDigits frac 50

/-- Model of Python `str(float)` including the non-finite specials. -/
def pyFloatRepr : PyFloat → String
  | .finite q => decimalRepr q
  | .nan => "nan"
  | .inf => "inf"
  | .ninf => "-inf"

/-- Model of Python `str(value)` on raw cell values. -/
def pyStr : RawVal → String
  | .none => "None"
  | .nan => "nan"
  | .str s => s
  | .int n => toString n
  | .float f => pyFloatRepr f
  | .bool b => if b then "True" else "False"

/-- Leading digits of a character list: their values and the remainder. -/
def takeDigits : List Char → List ℕ × List Char
  | [] => ([], [])
  | c :: cs =>
    if c.isDigit then
      let (ds, rest) := takeDigits cs
      ((c.toNat - 48) :: ds, rest)
    else ([], c :: cs)

/-- Value of a digit list read most-significant first. -/
def digitsToNat (ds : List ℕ) : ℕ := ds.foldl (fun a d => a * 10 + d) 0

/-- Parse an unsigned decimal number with optional fraction and exponent
(`123`, `1.5`, `.5`, `1.`, `1e3`, `2.5e-2`), as accepted by Python
`float()`.  Returns `none` where Python would raise `ValueError`. -/
def parseNum (cs : List Char) : Option ℚ :=
  let (ip, rest) := takeDigits cs
  let (fp, rest2) :=
    match rest with
    | '.' :: r => takeDigits r
    | _ => ([], rest)
  if ip.isEmpty && fp.isEmpty then Option.none
  else
    let mantissa : ℚ := (digitsToNat ip : ℚ) + (digitsToNat fp : ℚ) / ((10 : ℚ) ^ fp.length)
    match rest2 with
    | [] => some mantissa
    | 'e' :: r =>
      let (esign, r2) :=
        match r with
        | '+' :: rr => ((1 : ℤ), rr)
        | '-' :: rr => ((-1 : ℤ), rr)
        | rr => ((1 : ℤ), rr)
      let (ed, r3) := takeDigits r2
      if ed.isEmpty || !r3.isEmpty then Option.none
      else some (mantissa * (10 : ℚ) ^ (esign * (digitsToNat ed : ℤ)))
    | _ => Option.none

/-- Model of Python `float(s)`: strips whitespace, handles sign and the
words nan/inf/infinity case-insensitively, otherwise parses a decimal
number.  `none` models a raised `ValueError`. -/
def parseFloat (s : String) : Option PyFloat :=
  let t := (strLower (strTrim s)).data
  let (neg, cs) :=
    match t with
    | '+' :: r => (false, r)
    | '-' :: r => (true, r)
    | r => (false, r)
  if cs = "nan".data then some .nan
  else if cs = "inf".data || cs = "infinity".data then
    some (if neg then .ninf else .inf)
  else
    match parseNum cs with
    | some q => some (.finite (if neg then -q else q))
    | Option.none => Option.none

/-- `float()` as an `Except` computation: failure is a `ValueError`. -/
def tryFloat (s : String) : Except PyErr PyFloat :=
  match parseFloat s with
  | some f => .ok f
  | Option.none => .error .valueError

/-- Model of Python `int()` applied to a finite float: truncation toward zero. -/
def pyTrunc (q : ℚ) : ℤ :=
  if q < 0 then -((-q).floor) else q.floor

/-- Does `pat` occur at the start of `s`? (model of `str.startswith`). -/
def charsHasPre : List Char → List Char → Bool
  | [], _ => true
  | _ :: _, [] => false
  | p :: ps, c :: cs => p == c && charsHasPre ps cs

/-- Does `pat` occur anywhere in `s`? -/
def charsHasSub (pat : List Char) : List Char → Bool
  | [] => charsHasPre pat []
  | c :: cs => charsHasPre pat (c :: cs) || charsHasSub pat cs

/-- Model of Python `pat in s` on strings. -/
def strContains (s pat : String) : Bool := charsHasSub pat.data s.data

/-! ## Field sanitizers (services/data_normalizer.py, class DataNormalizer)

Each sanitizer is embedded as an `Except PyErr`-valued computation: the
operations of the Python body that can raise (`float(...)`) produce
`Except`, and the `try/except` clause of the source is the explicit catch
wrapper around the body.  A result of `.ok none` is Python `None`. -/

/-- `except (ValueError, TypeError): return None` — the catch clause shared
by sanitize_coordinate / sanitize_integer / sanitize_float. -/
def catchVT : Except PyErr (Option α) → Except PyErr (Option α)
  | .error .valueError => .ok Option.none
  | .error .typeError => .ok Option.none
  | other => other

/-- `except Exception: return None` — the catch-all clause of sanitize_string. -/
def catchAll : Except PyErr (Option α) → Except PyErr (Option α)
  | .error _ => .ok Option.none
  | other => other

/-- DataNormalizer.sanitize_coordinate: convert to float, null out blanks,
null-sentinel strings and non-finite results. -/
def sanitize_coordinate (v : RawVal) : Except PyErr (Option ℚ) :=
  if pdIsna v then .ok Option.none
  else
    catchVT
      (let coordStr := strTrim (pyStr v)
       if coordStr == "" || ["nan", "none", "null", ""].contains (strLower coordStr) then
         .ok Option.none
       else
         match tryFloat coordStr with
         | .error e => .error e
         | .ok (.finite q) => .ok (some q)
         | .ok _ => .ok Option.none)

/-- DataNormalizer.sanitize_string: trim, null out empty and null-sentinel
strings. -/
def sanitize_string (v : RawVal) : Except PyErr (Option String) :=
  if pdIsna v then .ok Option.none
  else
    catchAll
      (let cleaned := strTrim (pyStr v)
       if ["nan", "none", "null", "n/a", ""].contains (strLower cleaned) then
         .ok Option.none
       else .ok (some cleaned))

/-- DataNormalizer.sanitize_integer: parse via float then truncate, null out
non-finite values and values outside the optional bounds. -/
def sanitize_integer (v : RawVal) (minVal maxVal : Option ℤ) : Except PyErr (Option ℤ) :=
  if pdIsna v then .ok Option.none
  else
    catchVT
      (match tryFloat (strTrim (pyStr v)) with
       | .error e => .error e
       | .ok .nan => .ok Option.none
       | .ok .inf => .ok Option.none
       | .ok .ninf => .ok Option.none
       | .ok (.finite q) =>
         let numInt := pyTrunc q
         if (match minVal with | some m => decide (numInt < m) | Option.none => false) then
           .ok Option.none
         else if (match maxVal with | some m => decide (m < numInt) | Option.none => false) then
           .ok Option.none
         else .ok (some numInt))

/-- DataNormalizer.sanitize_float: parse as float, null out non-finite
values and values outside the optional bounds. -/
def sanitize_float (v : RawVal) (minVal maxVal : Option ℚ) : Except PyErr (Option ℚ) :=
  if pdIsna v then .ok Option.none
  else
    catchVT
      (match tryFloat (strTrim (pyStr v)) with
       | .error e => .error e
       | .ok .nan => .ok Option.none
       | .ok .inf => .ok Option.none
       | .ok .ninf => .ok Option.none
       | .ok (.finite q) =>
         if (match minVal with | some m => decide (q < m) | Option.none => false) then
           .ok Option.none
         else if (match maxVal with | some m => decide (m < q) | Option.none => false) then
           .ok Option.none
         else .ok (some q))

/-- The synonym table of DataNormalizer.normalize_device_type. -/
def deviceTypeMap : List (String × String) :=
  [("borewell", "Borewell"), ("bore well", "Borewell"), ("bw", "Borewell"),
   ("sump", "Sump"), ("sm", "Sump"),
   ("oht", "OHSR"), ("ohsr", "OHSR"), ("overhead tank", "OHSR"), ("overhead", "OHSR")]

/-- DataNormalizer.normalize_device_type: lower-case/trim then map through
the synonym table; unmapped strings pass through with whitespace stripped,
non-string values fall back to None. -/
def normalize_device_type (v : RawVal) : Except PyErr (Option String) :=
  if pdIsna v then .ok Option.none
  else
    let device_str := strLower (strTrim (pyStr v))
    .ok (match deviceTypeMap.lookup device_str with
         | some t => some t
         | Option.none => match v with
           | .str s => some (strTrim s)
           | _ => Option.none)

/-- The synonym table of DataNormalizer.normalize_status. -/
def statusMap : List (String × String) :=
  [("working", "Working"), ("work", "Working"),
   ("not working", "Not Working"), ("not work", "Not Working"), ("notworking", "Not Working"),
   ("on repair", "On Repair"), ("repair", "On Repair"),
   ("failed", "Failed"), ("fail", "Failed")]

/-- DataNormalizer.normalize_status: lower-case/trim then map through the
synonym table; unmapped strings pass through stripped, non-strings become None. -/
def normalize_status (v : RawVal) : Except PyErr (Option String) :=
  if pdIsna v then .ok Option.none
  else
    let status_str := strLower (strTrim (pyStr v))
    .ok (match statusMap.lookup status_str with
         | some t => some t
         | Option.none => match v with
           | .str s => some (strTrim s)
           | _ => Option.none)

/-! ## Schema contract (schemas/excel_schema.py) -/

/-- EXCEL_HEADER_MAP: the canonical dictionary from Excel column names to
canonical field names, in source order. -/
def EXCEL_HEADER_MAP : List (String × String) :=
  [("Survey Code (ID)", "survey_id"),
   ("Original Name", "original_name"),
   ("Zone", "zone"),
   ("Street Name / Landmark", "street"),
   ("Device Type", "device_type"),
   ("Status", "status"),
   ("Latitude", "lat"),
   ("Longitude", "lng"),
   ("Houses Conn.", "houses"),
   ("Daily Usage (Hrs)", "usage_hours"),
   ("Pipe Size (inch)", "pipe_size"),
   ("Motor HP / Cap", "motor_hp"),
   ("Notes / Maintenance Issue", "notes")]

/-- The effect of `df.rename(columns=EXCEL_HEADER_MAP)` on one column name:
an exact dictionary lookup; unmatched names are left unchanged. -/
def renameHeader (h : String) : String :=
  match EXCEL_HEADER_MAP.lookup h with
  | some f => f
  | Option.none => h

/-- Allowed device types: `[dt.value for dt in DeviceType]`. -/
def ALLOWED_TYPES : List String := ["Borewell", "Sump", "OHT", "OHSR", "Overhead Tank"]

/-- Allowed statuses: `[ds.value for ds in DeviceStatus]`. -/
def ALLOWED_STATUSES : List String :=
  ["Working", "Not Working", "Not Work", "On Repair", "Failed", "Repair"]

/-- Result of schemas.excel_schema.validate_excel_headers.  (Python computes
`missing`/`extra` via set difference whose iteration order is
nondeterministic; they are modelled in source order.  The human-readable
`warnings` strings are not modelled.) -/
structure HeaderValidation where
  valid : Bool
  missing : List String
  extra : List String
deriving DecidableEq, Repr

/-- validate_excel_headers: compare actual headers against the expected ones. -/
def validate_excel_headers (excel_headers : List String) : HeaderValidation :=
  let expected := EXCEL_HEADER_MAP.map (·.1)
  let missing := expected.filter (fun h => !excel_headers.contains h)
  let extra := excel_headers.filter (fun h => !expected.contains h)
  { valid := missing.isEmpty, missing := missing, extra := extra }

/-! ## Canonical device records and the batch validator
(services/excel_validator.py, class ExcelValidator) -/

/-- A normalized device record, the shape produced for every row by
normalize_survey_data (CANONICAL_SCHEMA).  Coordinates and numeric fields
hold finite values only, because the sanitizers reject NaN/inf. -/
structure NormRow where
  survey_id : Option String
  original_name : Option String
  zone : Option String
  street : Option String
  device_type : Option String
  status : Option String
  lat : Option ℚ
  lng : Option ℚ
  houses : Option ℤ
  usage_hours : Option ℚ
  pipe_size : Option ℚ
  motor_hp : Option ℚ
  notes : Option String
  row_index : ℤ
deriving DecidableEq, Repr

/-- Python truthiness of an optional string (`if not row.get(field)`):
None and the empty string are falsy. -/
def truthyStr : Option String → Bool
  | Option.none => false
  | some s => !(s == "")

/-- Python truthiness of an optional float: None and 0.0 are falsy. -/
def truthyQ : Option ℚ → Bool
  | Option.none => false
  | some q => !(q == 0)

/-- ExcelValidator._validate_numeric_field for the int-valued field
(`houses`): emits below-minimum / above-maximum messages independently. -/
def validate_numeric_int (field : String) (value : Option ℤ) (minVal maxVal : ℤ) :
    List String :=
  match value with
  | Option.none => []
  | some v =>
    (if v < minVal then
      [field ++ " below minimum: " ++ toString v ++ " < " ++ toString minVal] else []) ++
    (if maxVal < v then
      [field ++ " above maximum: " ++ toString v ++ " > " ++ toString maxVal] else [])

/-- ExcelValidator._validate_numeric_field for float-valued fields. -/
def validate_numeric_q (field : String) (value : Option ℚ) (minVal maxVal : ℚ) :
    List String :=
  match value with
  | Option.none => []
  | some v =>
    (if v < minVal then
      [field ++ " below minimum: " ++ decimalRepr v ++ " < " ++ decimalRepr minVal] else []) ++
    (if maxVal < v then
      [field ++ " above maximum: " ++ decimalRepr v ++ " > " ++ decimalRepr maxVal] else [])

/-- ExcelValidator.validate_row: required-field truthiness checks
(REQUIRED_FIELDS = [survey_id, lat, lng]), GPS presence and range checks,
enumeration membership checks, numeric range checks.  Returns
`(is_valid, errors)` with `is_valid = (len(errors) == 0)`. -/
def validate_row (row : NormRow) : Bool × List String :=
  let errors : List String :=
    (if truthyStr row.survey_id then [] else ["Missing required field: survey_id"]) ++
    (if truthyQ row.lat then [] else ["Missing required field: lat"]) ++
    (if truthyQ row.lng then [] else ["Missing required field: lng"]) ++
    (match row.lat, row.lng with
     | Option.none, Option.none => ["Missing GPS coordinates (both lat and lng are null)"]
     | Option.none, some _ => ["Missing latitude"]
     | some _, Option.none => ["Missing longitude"]
     | some lat, some lng =>
       (if decide (-90 ≤ lat) && decide (lat ≤ 90) then []
        else ["Latitude out of range: " ++ decimalRepr lat ++ " (must be -90 to 90)"]) ++
       (if decide (-180 ≤ lng) && decide (lng ≤ 180) then []
        else ["Longitude out of range: " ++ decimalRepr lng ++ " (must be -180 to 180)"])) ++
    (match row.device_type with
     | some dt =>
       if !(dt == "") && !ALLOWED_TYPES.contains dt then
         ["Unknown device type: '" ++ dt ++ "' (allowed: " ++
          String.intercalate ", " ALLOWED_TYPES ++ ")"]
       else []
     | Option.none => []) ++
    (match row.status with
     | some st =>
       if !(st == "") && !ALLOWED_STATUSES.contains st then
         ["Unknown status: '" ++ st ++ "' (allowed: " ++
          String.intercalate ", " ALLOWED_STATUSES ++ ")"]
       else []
     | Option.none => []) ++
    validate_numeric_int "houses" row.houses 0 10000 ++
    validate_numeric_q "usage_hours" row.usage_hours 0 24 ++
    validate_numeric_q "pipe_size" row.pipe_size 0 100 ++
    validate_numeric_q "motor_hp" row.motor_hp 0 1000
  (errors.isEmpty, errors)

/-- ExcelValidator._categorize_error: first matching substring rule wins. -/
def categorize_error (msg : String) : String :=
  let e := strLower msg
  if strContains e "missing" &&
      (strContains e "lat" || strContains e "lng" || strContains e "gps" ||
       strContains e "coordinate") then
    "missing_coordinates"
  else if strContains e "missing required field" then "missing_required_field"
  else if strContains e "out of range" then "coordinate_out_of_range"
  else if strContains e "unknown device type" then "invalid_device_type"
  else if strContains e "unknown status" then "invalid_status"
  else if strContains e "below minimum" || strContains e "above maximum" then
    "numeric_range_violation"
  else "other_validation_error"

/-- `error_counts[error_type] = error_counts.get(error_type, 0) + 1`:
a Python dict as an insertion-ordered association list. -/
def bumpCount : List (String × ℕ) → String → List (String × ℕ)
  | [], k => [(k, 1)]
  | (k', n) :: rest, k =>
    if k' == k then (k', n + 1) :: rest else (k', n) :: bumpCount rest k

/-- Round-half-even on an exact rational (the rule of Python `round`). -/
def roundHalfEven (x : ℚ) : ℤ :=
  let n := x.floor
  let f := x - (n : ℚ)
  if f < 1/2 then n
  else if 1/2 < f then n + 1
  else if n % 2 = 0 then n else n + 1

/-- Model of Python `round(x, 2)`. -/
def pyRound2 (x : ℚ) : ℚ := (roundHalfEven (x * 100) : ℚ) / 100

/-- Aggregate statistics of one validation batch. -/
structure VBStats where
  total : ℕ
  valid : ℕ
  invalid : ℕ
  validation_rate : ℚ
  error_breakdown : List (String × ℕ)
deriving DecidableEq, Repr

/-- Result of ExcelValidator.validate_batch: an invalid device is the input
record together with its `validation_errors` list. -/
structure VBResult where
  valid_devices : List NormRow
  invalid_devices : List (NormRow × List String)
  stats : VBStats
deriving DecidableEq, Repr

/-- The loop body of validate_batch: route the row to the valid or invalid
accumulator and count the categorized errors of an invalid row. -/
def vbStep (acc : List NormRow × List (NormRow × List String) × List (String × ℕ))
    (row : NormRow) :
    List NormRow × List (NormRow × List String) × List (String × ℕ) :=
  let p := validate_row row
  if p.1 then (acc.1 ++ [row], acc.2.1, acc.2.2)
  else
    (acc.1, acc.2.1 ++ [(row, p.2)],
     p.2.foldl (fun c e => bumpCount c (categorize_error e)) acc.2.2)

/-- ExcelValidator.validate_batch: validate every row, partition into
valid/invalid, and compute the aggregate statistics. -/
def validate_batch (rows : List NormRow) : VBResult :=
  let acc := rows.foldl vbStep ([], [], [])
  let total := rows.length
  let valid_count := acc.1.length
  let invalid_count := acc.2.1.length
  { valid_devices := acc.1
    invalid_devices := acc.2.1
    stats :=
      { total := total
        valid := valid_count
        invalid := invalid_count
        validation_rate :=
          pyRound2 (if 0 < total then (valid_count : ℚ) / (total : ℚ) * 100 else 0)
        error_breakdown := acc.2.2 } }

/-! ## Normalization pipeline (services/excel_service.py, dashboard_app) -/

/-- A pandas DataFrame as the pipeline sees it: column labels plus rows of
raw cells (each row aligned with `cols`; a short row reads as missing). -/
structure Frame where
  cols : List String
  rows : List (List RawVal)
deriving DecidableEq, Repr

/-- `row.get(field)` on a labelled pandas row: the cell under the first
matching label, or None when the label is absent. -/
def rowGet (cols : List String) (row : List RawVal) (field : String) : RawVal :=
  match (cols.zip row).find? (fun p => p.1 == field) with
  | some p => p.2
  | Option.none => RawVal.none

/-- The sheet-level output of normalize_survey_data.  `header_validation`
is absent (None) on the empty-frame short-circuit, mirroring the source's
early return.  (`make_json_safe` is the identity on these records: no NaN
or infinity survives the sanitizers.) -/
structure NormResult where
  valid_devices : List NormRow
  invalid_devices : List (NormRow × List String)
  stats : VBStats
  header_validation : Option HeaderValidation
deriving DecidableEq, Repr

/-- The per-row body of normalize_survey_data: sanitize every canonical
field of the header-mapped row and attach `row_index = idx + 2`. -/
def normalize_row (mappedCols : List String) (idx : ℕ) (row : List RawVal) :
    Except PyErr NormRow := do
  let g := rowGet mappedCols row
  let survey_id ← sanitize_string (g "survey_id")
  let original_name ← sanitize_string (g "original_name")
  let zone ← sanitize_string (g "zone")
  let street ← sanitize_string (g "street")
  let device_type ← normalize_device_type (g "device_type")
  let status ← normalize_status (g "status")
  let lat ← sanitize_coordinate (g "lat")
  let lng ← sanitize_coordinate (g "lng")
  let houses ← sanitize_integer (g "houses") (some 0) (some 10000)
  let usage_hours ← sanitize_float (g "usage_hours") (some 0) (some 24)
  let pipe_size ← sanitize_float (g "pipe_size") (some 0) (some 100)
  let motor_hp ← sanitize_float (g "motor_hp") (some 0) (some 1000)
  let notes ← sanitize_string (g "notes")
  pure
    { survey_id := survey_id, original_name := original_name, zone := zone,
      street := street, device_type := device_type, status := status,
      lat := lat, lng := lng, houses := houses, usage_hours := usage_hours,
      pipe_size := pipe_size, motor_hp := motor_hp, notes := notes,
      row_index := (idx : ℤ) + 2 }

/-- normalize_survey_data (dashboard_app/services/excel_service.py):
empty-frame short-circuit, header validation, header renaming via
EXCEL_HEADER_MAP, per-row sanitization, batch validation. -/
def normalize_survey_data (df : Frame) : Except PyErr NormResult :=
  if df.rows.isEmpty || df.cols.isEmpty then
    .ok { valid_devices := [], invalid_devices := [],
          stats := { total := 0, valid := 0, invalid := 0, validation_rate := 0,
                     error_breakdown := [] },
          header_validation := Option.none }
  else do
    let hv := validate_excel_headers df.cols
    let mappedCols := df.cols.map renameHeader
    let normalized_rows ← df.rows.enum.mapM (fun p => normalize_row mappedCols p.1 p.2)
    let vr := validate_batch normalized_rows
    pure { valid_devices := vr.valid_devices, invalid_devices := vr.invalid_devices,
           stats := vr.stats, header_validation := some hv }

/-! ## Reconciliation/sync engine (services/sync_service.py) -/

/-- The persistence payload of one device: the normalized record with the
transient `row_index` dropped
(`clean_record = \x7bk: v for k, v in device.items() if k not in ['row_index']\x7d`). -/
structure DevicePayload where
  survey_id : Option String
  original_name : Option String
  zone : Option String
  street : Option String
  device_type : Option String
  status : Option String
  lat : Option ℚ
  lng : Option ℚ
  houses : Option ℤ
  usage_hours : Option ℚ
  pipe_size : Option ℚ
  motor_hp : Option ℚ
  notes : Option String
deriving DecidableEq, Repr

/-- Drop `row_index` from a device record. -/
def payloadOf (d : NormRow) : DevicePayload :=
  { survey_id := d.survey_id, original_name := d.original_name, zone := d.zone,
    street := d.street, device_type := d.device_type, status := d.status,
    lat := d.lat, lng := d.lng, houses := d.houses, usage_hours := d.usage_hours,
    pipe_size := d.pipe_size, motor_hp := d.motor_hp, notes := d.notes }

/-- `for i in range(0, len(upsert_data), 100): chunk = upsert_data[i:i + 100]`:
consecutive slices of at most 100 elements. -/
def chunks100 : List α → List (List α)
  | [] => []
  | x :: xs => ((x :: xs).take 100) :: chunks100 ((x :: xs).drop 100)
termination_by l => l.length
decreasing_by simp [List.length_drop]; omega

/-- One database write issued by the sync engine.  The only write shape the
function contains is `supabase.table(t).upsert(chunk, on_conflict=k)`. -/
inductive DbOp where
  | upsert (table : String) (records : List DevicePayload) (onConflict : String)
deriving DecidableEq, Repr

/-- The table a database write targets. -/
def dbOpTable : DbOp → String
  | .upsert t _ _ => t

/-- Sheet auto-detection: `any(key in lower_name for key in [...])`. -/
def sheetMatches (lower_name : String) : Bool :=
  ["bore", "sump", "ohsr", "oht", "overhead"].any (fun key => strContains lower_name key)

/-- Device-type inference from a sheet name (default Borewell). -/
def inferType (lower_name : String) : String :=
  if strContains lower_name "sump" then "Sump"
  else if strContains lower_name "ohsr" || strContains lower_name "overhead" ||
          strContains lower_name "oht" then "OHSR"
  else "Borewell"

/-- Modelled from the spec: the sync engine calls
`normalize_survey_data(df, device_type_override=d_type)`, a variant of
normalize_survey_data that is missing from the snapshot (the snapshot's
excel_service exposes no `device_type_override` parameter).  Per spec §4.3
("resolve device type as explicit override ... else sanitized device_type
column value"), the override replaces the row-level device_type before
validation. -/
def normalize_survey_data_override (df : Frame) (dtype : String) : Except PyErr NormResult :=
  if df.rows.isEmpty || df.cols.isEmpty then
    .ok { valid_devices := [], invalid_devices := [],
          stats := { total := 0, valid := 0, invalid := 0, validation_rate := 0,
                     error_breakdown := [] },
          header_validation := Option.none }
  else do
    let hv := validate_excel_headers df.cols
    let mappedCols := df.cols.map renameHeader
    let normalized_rows ←
      df.rows.enum.mapM (fun p => do
        let r ← normalize_row mappedCols p.1 p.2
        pure { r with device_type := some dtype })
    let vr := validate_batch normalized_rows
    pure { valid_devices := vr.valid_devices, invalid_devices := vr.invalid_devices,
           stats := vr.stats, header_validation := some hv }

/-- String rendering of a Python exception kind (used for `str(e)` when a
sanitizer error escapes; the totality theorems show it never happens). -/
def pyErrStr : PyErr → String
  | .valueError => "ValueError"
  | .typeError => "TypeError"
  | .overflowError => "OverflowError"

/-- The sheet loop of sync_excel_to_supabase: for every sheet whose
lower-cased name matches a device keyword, infer the device type from the
name, normalize with that override, and collect the valid devices. -/
def collectDevices (dfs : List (String × Frame)) : Except PyErr (List NormRow) :=
  dfs.foldlM
    (fun acc p => do
      let lower_name := strLower p.1
      if sheetMatches lower_name then
        let result ← normalize_survey_data_override p.2 (inferType lower_name)
        pure (acc ++ result.valid_devices)
      else pure acc)
    []

/-- The result dict of sync_excel_to_supabase, as a sum of its three shapes:
`\x7bstatus: warning\x7d` with `stats.processed`, `\x7bstatus: success\x7d` with
`stats.processed` (and `stats.upserted` on the chunked branch), and
`\x7bstatus: error\x7d` with only a message. -/
inductive SyncResult where
  | warning (message : String) (processed : ℕ)
  | success (message : String) (processed : ℕ) (upserted : Option ℕ)
  | error (message : String)
deriving DecidableEq, Repr

/-- The `try` body of sync_excel_to_supabase.  `allDfs` is the outcome of
the `fetch_excel_data()` collaborator (an exception there is an `.error`).
In this embedding every operation that can raise occurs before the first
upsert, so a caught exception leaves an empty write trace. -/
def syncTry (allDfs : Except String (List (String × Frame))) :
    Except String (SyncResult × List DbOp) := do
  let dfs ← allDfs
  let all_devices ← (collectDevices dfs).mapError pyErrStr
  if all_devices.isEmpty then
    pure (.warning "No valid devices found in Excel" 0, [])
  else
    let upsert_data := all_devices.map payloadOf
    if upsert_data.isEmpty then
      pure (.success "No data to sync" 0 Option.none, [])
    else
      let chunks := chunks100 upsert_data
      let ops := chunks.map (fun c => DbOp.upsert "devices" c "survey_id")
      let total_upserted := (chunks.map List.length).sum
      pure (.success "Sync complete" all_devices.length (some total_upserted), ops)

/-- SyncService.sync_excel_to_supabase: the try body wrapped in
`except Exception as e: return \x7b"status": "error", "message": str(e)\x7d`.
Returns the result dict together with the database writes performed. -/
def sync_excel_to_supabase (allDfs : Except String (List (String × Frame))) :
    SyncResult × List DbOp :=
  match syncTry allDfs with
  | .ok r => r
  | .error e => (.error e, [])

/-! ## Fetch/cache orchestrator (services/excel_service.py: Redis caching) -/

/-- One HTTP-layer error: FastAPI `HTTPException(status_code, detail)`. -/
structure HErr where
  status : ℕ
  detail : String
deriving DecidableEq, Repr

/-- The metadata block of a get_survey_data response. -/
structure SurveyMetadata where
  sheet_name : String
  total_rows : ℕ
  valid_count : ℕ
  invalid_count : ℕ
  validation_rate : ℚ
  error_breakdown : List (String × ℕ)
  header_validation : Option HeaderValidation
  cached_at : String
deriving DecidableEq, Repr

/-- A get_survey_data response; `invalid_devices` is None after the key has
been popped for `include_invalid=False` callers. -/
structure SurveyResponse where
  devices : List NormRow
  invalid_devices : Option (List (NormRow × List String))
  metadata : SurveyMetadata
deriving DecidableEq, Repr

/-- A value stored in Redis under one key: the available-sheets list, the
fetch counter, or one sheet's cached response. -/
inductive CacheVal where
  | sheets (names : List String)
  | count (n : ℕ)
  | resp (r : SurveyResponse)
deriving DecidableEq, Repr

/-- The Redis key space as an association list (insertion-ordered). -/
abbrev Cache := List (String × CacheVal)

/-- redis_client.get. -/
def cacheGet (c : Cache) (k : String) : Option CacheVal :=
  match (c : List (String × CacheVal)).find? (fun p => p.1 == k) with
  | some p => some p.2
  | Option.none => Option.none

/-- redis_client.set: replace the key's value, or append the key. -/
def cacheSet : Cache → String → CacheVal → Cache
  | [], k, v => [(k, v)]
  | (k', v') :: rest, k, v =>
    if k' == k then (k, v) :: rest else (k', v') :: cacheSet rest k v

/-- fetch_excel_from_github: given the outcome of the HTTP GET + workbook
parse (an `.error` models a timeout/non-2xx/parse failure), cache the sheet
names, 404 when the sheet is absent, bump the fetch counter and return the
frame; any non-HTTP exception is re-raised as `HTTPException(500, str(e))`.
Returns the outcome together with the updated cache. -/
def fetch_excel_from_github (httpRes : Except String (List (String × Frame)))
    (sheet_name : String) (cache : Cache) : Except HErr Frame × Cache :=
  match httpRes with
  | .error e => (.error { status := 500, detail := e }, cache)
  | .ok wb =>
    let available := wb.map (·.1)
    let cache1 := cacheSet cache "available_sheets" (.sheets available)
    match wb.find? (fun p => p.1 == sheet_name) with
    | Option.none =>
      (.error { status := 404, detail := "Sheet '" ++ sheet_name ++ "' not found" }, cache1)
    | some p =>
      let fetch_count :=
        match cacheGet cache1 "fetch_count" with
        | some (.count n) => n
        | _ => 0
      let cache2 := cacheSet cache1 "fetch_count" (.count (fetch_count + 1))
      (.ok p.2, cache2)

/-- An error escaping get_survey_data: an HTTPException from the fetch, or
a Python exception from normalization (which the totality theorems rule out). -/
inductive RunErr where
  | http (e : HErr)
  | py (e : PyErr)
deriving DecidableEq, Repr

/-- `cached_data.pop("invalid_devices", None)` on a (local copy of a)
response dict. -/
def dropInvalid (r : SurveyResponse) : SurveyResponse :=
  { r with invalid_devices := Option.none }

/-- get_survey_data: serve the Redis-cached response when the sheet key is
present, otherwise fetch, normalize, cache the full response under
`sheet:<name>` and return it (with `invalid_devices` popped unless
requested).  `now` stands for `datetime.utcnow().isoformat()`.  Returns the
outcome together with the final cache state. -/
def get_survey_data (httpRes : Except String (List (String × Frame)))
    (sheet_name : String) (include_invalid : Bool) (now : String) (cache : Cache) :
    Except RunErr SurveyResponse × Cache :=
  let cache_key := "sheet:" ++ sheet_name
  match cacheGet cache cache_key with
  | some (.resp r) => (.ok (if include_invalid then r else dropInvalid r), cache)
  | _ =>
    match fetch_excel_from_github httpRes sheet_name cache with
    | (.error e, c1) => (.error (.http e), c1)
    | (.ok df, c1) =>
      match normalize_survey_data df with
      | .error pe => (.error (.py pe), c1)
      | .ok result =>
        let response : SurveyResponse :=
          { devices := result.valid_devices
            invalid_devices := some result.invalid_devices
            metadata :=
              { sheet_name := sheet_name
                total_rows := result.stats.total
                valid_count := result.stats.valid
                invalid_count := result.stats.invalid
                validation_rate := result.stats.validation_rate
                error_breakdown := result.stats.error_breakdown
                header_validation := result.header_validation
                cached_at := now } }
        let c2 := cacheSet c1 cache_key (.resp response)
        (.ok (if include_invalid then response else dropInvalid response), c2)

/-! ## Theorems -/

unseal Nat.gcd Rat.mul Rat.add Rat.sub Rat.inv

/-- C1 — counterexample.  The claim asserts that header resolution is
case-insensitive, so "LATITUDE", "latitude" and "Latitude" all resolve to
`lat`.  The resolution actually performed (`df.rename(columns=EXCEL_HEADER_MAP)`)
is an exact, case-sensitive dictionary lookup: only the exact spelling
"Latitude" resolves to `lat`; the other two casings are left unresolved. -/
theorem C1_case_sensitivity_counterexample :
    renameHeader "Latitude" = "lat" ∧
    renameHeader "LATITUDE" ≠ "lat" ∧ renameHeader "latitude" ≠ "lat" := by
  refine ⟨by decide, by decide, by decide⟩

/-- C1 — amended claim: header resolution is an exact, case-sensitive match
against the canonical dictionary.  Every header spelled exactly as in
EXCEL_HEADER_MAP resolves to its fixed canonical field name, and any other
spelling (including case variants such as "LATITUDE") is left unchanged
(hence unresolved). -/
theorem C1_header_resolution_exact :
    (∀ p ∈ EXCEL_HEADER_MAP, renameHeader p.1 = p.2) ∧
    (∀ h : String, EXCEL_HEADER_MAP.lookup h = Option.none → renameHeader h = h) := by
  constructor
  · decide
  · intro h hl
    unfold renameHeader
    rw [hl]

/-- Witness for C1: the dictionary spelling "Latitude" resolves to `lat`,
and the case variant "LATITUDE" is absent from the dictionary and resolves
to itself. -/
theorem C1_header_resolution_exact_witness :
    (("Latitude", "lat") ∈ EXCEL_HEADER_MAP ∧ renameHeader "Latitude" = "lat") ∧
    (EXCEL_HEADER_MAP.lookup "LATITUDE" = Option.none ∧
      renameHeader "LATITUDE" = "LATITUDE") :=
  ⟨⟨by decide, C1_header_resolution_exact.1 ("Latitude", "lat") (by decide)⟩,
   ⟨by decide, C1_header_resolution_exact.2 "LATITUDE" (by decide)⟩⟩

/-- `tryFloat` fails only with a ValueError. -/
theorem tryFloat_error_eq {s : String} {e : PyErr} (h : tryFloat s = .error e) :
    e = .valueError := by
  unfold tryFloat at h
  cases hp : parseFloat s <;> rw [hp] at h <;> simp_all

/-- `catchVT` yields a normal result on every value the sanitizer bodies
can produce (only an uncaught OverflowError could escape, and none arises). -/
theorem catchVT_isOk {α : Type} (b : Except PyErr (Option α))
    (h : b ≠ .error .overflowError) : (catchVT b).isOk = true := by
  cases b with
  | ok r => rfl
  | error e =>
    cases e with
    | valueError => rfl
    | typeError => rfl
    | overflowError => exact absurd rfl h

/-- `catchAll` always yields a normal result. -/
theorem catchAll_isOk {α : Type} (b : Except PyErr (Option α)) :
    (catchAll b).isOk = true := by
  cases b <;> rfl

/-- sanitize_coordinate never raises. -/
theorem sanitize_coordinate_isOk (v : RawVal) : (sanitize_coordinate v).isOk = true := by
  unfold sanitize_coordinate
  split
  · rfl
  · apply catchVT_isOk
    dsimp only
    split
    · simp
    · generalize h : tryFloat (strTrim (pyStr v)) = tf
      cases tf with
      | ok f => cases f <;> simp
      | error e => rw [tryFloat_error_eq h]; simp

/-- sanitize_string never raises. -/
theorem sanitize_string_isOk (v : RawVal) : (sanitize_string v).isOk = true := by
  unfold sanitize_string
  split
  · rfl
  · apply catchAll_isOk

/-- sanitize_integer never raises. -/
theorem sanitize_integer_isOk (v : RawVal) (minVal maxVal : Option ℤ) :
    (sanitize_integer v minVal maxVal).isOk = true := by
  unfold sanitize_integer
  split
  · rfl
  · apply catchVT_isOk
    generalize h : tryFloat (strTrim (pyStr v)) = tf
    cases tf with
    | ok f =>
      cases f with
      | finite q =>
        dsimp only
        split
        · simp
        · split <;> simp
      | nan => simp
      | inf => simp
      | ninf => simp
    | error e => rw [tryFloat_error_eq h]; simp

/-- sanitize_float never raises. -/
theorem sanitize_float_isOk (v : RawVal) (minVal maxVal : Option ℚ) :
    (sanitize_float v minVal maxVal).isOk = true := by
  unfold sanitize_float
  split
  · rfl
  · apply catchVT_isOk
    generalize h : tryFloat (strTrim (pyStr v)) = tf
    cases tf with
    | ok f =>
      cases f with
      | finite q =>
        dsimp only
        split
        · simp
        · split <;> simp
      | nan => simp
      | inf => simp
      | ninf => simp
    | error e => rw [tryFloat_error_eq h]; simp

/-- normalize_device_type never raises. -/
theorem normalize_device_type_isOk (v : RawVal) : (normalize_device_type v).isOk = true := by
  unfold normalize_device_type
  split <;> rfl

/-- normalize_status never raises. -/
theorem normalize_status_isOk (v : RawVal) : (normalize_status v).isOk = true := by
  unfold normalize_status
  split <;> rfl

/-- C2 — confirmed.  Every field sanitizer is total: for any raw cell value
(null, pandas NaN, blank or whitespace-only strings, the null-sentinel words
in any casing, non-numeric strings, non-finite floats, ints, bools) and any
bounds, each sanitizer returns normally (`.ok`) with either a well-typed
value or None — the embedded `try/except` clauses catch every exception the
body can raise. -/
theorem C2_sanitizers_total (v : RawVal) (minI maxI : Option ℤ) (minQ maxQ : Option ℚ) :
    (sanitize_coordinate v).isOk = true ∧
    (sanitize_string v).isOk = true ∧
    (sanitize_integer v minI maxI).isOk = true ∧
    (sanitize_float v minQ maxQ).isOk = true ∧
    (normalize_device_type v).isOk = true ∧
    (normalize_status v).isOk = true :=
  ⟨sanitize_coordinate_isOk v, sanitize_string_isOk v,
   sanitize_integer_isOk v minI maxI, sanitize_float_isOk v minQ maxQ,
   normalize_device_type_isOk v, normalize_status_isOk v⟩

/-- C5 — confirmed.  The input row
`\x7b"Survey Code (ID)": "", "Latitude": "95.0", "Longitude": "78.39"\x7d`
normalizes to a record that is quarantined with exactly the ordered error
list `["Missing required field: survey_id",
"Latitude out of range: 95.0 (must be -90 to 90)"]`, and the error
classifier assigns the two messages to `missing_required_field` and
`coordinate_out_of_range` respectively. -/
theorem C5_concrete_invalid_row :
    ((normalize_survey_data
        { cols := ["Survey Code (ID)", "Latitude", "Longitude"],
          rows := [[.str "", .str "95.0", .str "78.39"]] }).toOption.map
        (fun r => (r.valid_devices, r.invalid_devices))) =
      some ([],
        [({ survey_id := Option.none, original_name := Option.none,
            zone := Option.none, street := Option.none,
            device_type := Option.none, status := Option.none,
            lat := some 95, lng := some (7839 / 100),
            houses := Option.none, usage_hours := Option.none,
            pipe_size := Option.none, motor_hp := Option.none,
            notes := Option.none, row_index := 2 },
          ["Missing required field: survey_id",
           "Latitude out of range: 95.0 (must be -90 to 90)"])]) ∧
    categorize_error "Missing required field: survey_id" = "missing_required_field" ∧
    categorize_error "Latitude out of range: 95.0 (must be -90 to 90)" =
      "coordinate_out_of_range" := by
  refine ⟨by decide, by decide, by decide⟩

/-- The valid accumulator of the validate_batch loop collects exactly the
rows whose validation succeeds, in order. -/
theorem vb_foldl_valid (rows : List NormRow) :
    ∀ a b c, (rows.foldl vbStep (a, b, c)).1 =
      a ++ rows.filter (fun r => (validate_row r).1) := by
  induction rows with
  | nil => intro a b c; simp
  | cons r rs ih =>
    intro a b c
    by_cases h : (validate_row r).1 <;>
      simp [vbStep, h, ih, List.filter_cons]

/-- The invalid accumulator of the validate_batch loop collects exactly the
failing rows, in order, each paired with its error list. -/
theorem vb_foldl_invalid (rows : List NormRow) :
    ∀ a b c, (rows.foldl vbStep (a, b, c)).2.1 =
      b ++ (rows.filter (fun r => !(validate_row r).1)).map
        (fun r => (r, (validate_row r).2)) := by
  induction rows with
  | nil => intro a b c; simp
  | cons r rs ih =>
    intro a b c
    by_cases h : (validate_row r).1 <;>
      simp [vbStep, h, ih, List.filter_cons]

/-- `is_valid` is exactly emptiness of the error list. -/
theorem validate_row_fst (r : NormRow) : (validate_row r).1 = (validate_row r).2.isEmpty :=
  rfl

/-- C3 — confirmed.  For every batch, the reported validation_rate equals
`round(valid/total*100, 2)` when total > 0 and 0 when total = 0 (the source
computes `round(0, 2)`, which is 0), where total is the number of input
records and valid is the number of records whose validation produced zero
errors; the reported total and valid counts agree with those quantities. -/
theorem C3_validation_rate (rows : List NormRow) :
    (validate_batch rows).stats.total = rows.length ∧
    (validate_batch rows).stats.valid =
      rows.countP (fun r => (validate_row r).2.isEmpty) ∧
    (validate_batch rows).stats.validation_rate =
      (if 0 < rows.length then
        pyRound2 ((rows.countP (fun r => (validate_row r).2.isEmpty) : ℚ) /
          (rows.length : ℚ) * 100)
       else 0) := by
  have hpred : (fun r => (validate_row r).1) =
      (fun r => (validate_row r).2.isEmpty) := funext fun r => validate_row_fst r
  have hv : (validate_batch rows).stats.valid =
      rows.countP (fun r => (validate_row r).2.isEmpty) := by
    show (rows.foldl vbStep ([], [], [])).1.length = _
    rw [vb_foldl_valid rows [] [] [], hpred, List.countP_eq_length_filter]
    simp
  refine ⟨rfl, hv, ?_⟩
  show pyRound2 (if 0 < rows.length then
      ((rows.foldl vbStep ([], [], [])).1.length : ℚ) / (rows.length : ℚ) * 100 else 0) = _
  have hlen : (rows.foldl vbStep ([], [], [])).1.length =
      rows.countP (fun r => (validate_row r).2.isEmpty) := hv
  rw [hlen]
  by_cases h : 0 < rows.length
  · simp [h]
  · simp only [h, if_false]
    decide

/-- Filtering a list by a predicate and by its negation partitions its length. -/
theorem filter_length_partition {α : Type} (p : α → Bool) (l : List α) :
    (l.filter p).length + (l.filter (fun r => !p r)).length = l.length := by
  induction l with
  | nil => rfl
  | cons x xs ih => by_cases h : p x <;> simp [List.filter_cons, h] <;> omega

/-- C4 — confirmed.  Batch validation partitions its input: the valid set is
exactly the rows whose validation produced zero errors (in order), the
invalid set is exactly the remaining rows (in order) each carrying its
non-empty error list, a row is valid exactly when its error list is empty,
and the valid and invalid counts sum to the total input count. -/
theorem C4_partition (rows : List NormRow) :
    (validate_batch rows).valid_devices =
      rows.filter (fun r => (validate_row r).1) ∧
    (validate_batch rows).invalid_devices =
      (rows.filter (fun r => !(validate_row r).1)).map
        (fun r => (r, (validate_row r).2)) ∧
    ((validate_batch rows).invalid_devices.all (fun p => !p.2.isEmpty)) = true ∧
    (rows.all (fun r => (validate_row r).1 == (validate_row r).2.isEmpty)) = true ∧
    (validate_batch rows).valid_devices.length +
      (validate_batch rows).invalid_devices.length = rows.length ∧
    (validate_batch rows).stats.valid + (validate_batch rows).stats.invalid =
      (validate_batch rows).stats.total := by
  have hval : (validate_batch rows).valid_devices =
      rows.filter (fun r => (validate_row r).1) := by
    show (rows.foldl vbStep ([], [], [])).1 = _
    rw [vb_foldl_valid rows [] [] []]; simp
  have hinv : (validate_batch rows).invalid_devices =
      (rows.filter (fun r => !(validate_row r).1)).map
        (fun r => (r, (validate_row r).2)) := by
    show (rows.foldl vbStep ([], [], [])).2.1 = _
    rw [vb_foldl_invalid rows [] [] []]; simp
  refine ⟨hval, hinv, ?_, ?_, ?_, ?_⟩
  · rw [hinv, List.all_eq_true]
    intro p hp
    obtain ⟨r, hr, hpr⟩ := List.mem_map.mp hp
    obtain ⟨-, hfail⟩ := List.mem_filter.mp hr
    subst hpr
    simp only [Bool.not_eq_true'] at hfail ⊢
    rw [← validate_row_fst]
    exact hfail
  · rw [List.all_eq_true]
    intro r _
    rw [validate_row_fst]
    exact beq_self_eq_true _
  · rw [hval, hinv, List.length_map]
    exact filter_length_partition (fun r => (validate_row r).1) rows
  · show (validate_batch rows).valid_devices.length +
        (validate_batch rows).invalid_devices.length = rows.length
    rw [hval, hinv, List.length_map]
    exact filter_length_partition (fun r => (validate_row r).1) rows

/-- The valid set of a batch is the in-order sublist of rows passing
validation. -/
theorem vb_valid_devices_eq (rows : List NormRow) :
    (validate_batch rows).valid_devices =
      rows.filter (fun r => (validate_row r).1) := by
  show (rows.foldl vbStep ([], [], [])).1 = _
  rw [vb_foldl_valid rows [] [] []]; simp

/-- A row whose `lat` is exactly 0 fails validation with a missing-lat
required-field error (Python truthiness treats 0.0 as absent). -/
theorem validate_row_zero_lat (r : NormRow) (h : r.lat = some 0) :
    (validate_row r).1 = false ∧ "Missing required field: lat" ∈ (validate_row r).2 := by
  have hmem : "Missing required field: lat" ∈ (validate_row r).2 := by
    simp [validate_row, h, truthyQ]
  refine ⟨?_, hmem⟩
  cases hl : (validate_row r).2 with
  | nil => rw [hl] at hmem; cases hmem
  | cons a as => rw [validate_row_fst, hl]; rfl

/-- A row whose `lng` is exactly 0 fails validation with a missing-lng
required-field error. -/
theorem validate_row_zero_lng (r : NormRow) (h : r.lng = some 0) :
    (validate_row r).1 = false ∧ "Missing required field: lng" ∈ (validate_row r).2 := by
  have hmem : "Missing required field: lng" ∈ (validate_row r).2 := by
    simp [validate_row, h, truthyQ]
  refine ⟨?_, hmem⟩
  cases hl : (validate_row r).2 with
  | nil => rw [hl] at hmem; cases hmem
  | cons a as => rw [validate_row_fst, hl]; rfl

/-- A row whose `survey_id` is the empty string fails validation with a
missing-survey_id required-field error. -/
theorem validate_row_empty_id (r : NormRow) (h : r.survey_id = some "") :
    (validate_row r).1 = false ∧
      "Missing required field: survey_id" ∈ (validate_row r).2 := by
  have hmem : "Missing required field: survey_id" ∈ (validate_row r).2 := by
    simp [validate_row, h, truthyStr]
  refine ⟨?_, hmem⟩
  cases hl : (validate_row r).2 with
  | nil => rw [hl] at hmem; cases hmem
  | cons a as => rw [validate_row_fst, hl]; rfl

/-- C10 — confirmed.  Because the required-field check tests Python
truthiness rather than presence, a normalized record whose lat is exactly 0
(or lng exactly 0, or survey_id the empty string) receives a
"Missing required field" error and is quarantined, even though 0 is inside
the allowed coordinate range; consequently no record with a zero coordinate
or empty survey_id ever appears in a batch's valid set. -/
theorem C10_truthiness_quarantines_zero (rows : List NormRow)
    (r1 r2 r3 r4 : NormRow) :
    (r1.lat = some 0 →
      (validate_row r1).1 = false ∧
        "Missing required field: lat" ∈ (validate_row r1).2) ∧
    (r2.lng = some 0 →
      (validate_row r2).1 = false ∧
        "Missing required field: lng" ∈ (validate_row r2).2) ∧
    (r3.survey_id = some "" →
      (validate_row r3).1 = false ∧
        "Missing required field: survey_id" ∈ (validate_row r3).2) ∧
    (r4 ∈ (validate_batch rows).valid_devices →
      r4.lat ≠ some 0 ∧ r4.lng ≠ some 0 ∧ r4.survey_id ≠ some "") := by
  refine ⟨validate_row_zero_lat r1, validate_row_zero_lng r2,
    validate_row_empty_id r3, fun hmem => ?_⟩
  have hval : (validate_row r4).1 = true := by
    rw [vb_valid_devices_eq rows] at hmem
    exact (List.mem_filter.mp hmem).2
  refine ⟨fun h0 => ?_, fun h0 => ?_, fun h0 => ?_⟩
  · rw [(validate_row_zero_lat r4 h0).1] at hval; cases hval
  · rw [(validate_row_zero_lng r4 h0).1] at hval; cases hval
  · rw [(validate_row_empty_id r4 h0).1] at hval; cases hval

/-- A record with a zero latitude (all other fields unexceptional). -/
def zeroLatRow : NormRow :=
  { survey_id := some "BW-10", original_name := Option.none, zone := Option.none,
    street := Option.none, device_type := Option.none, status := Option.none,
    lat := some 0, lng := some (7839 / 100), houses := Option.none,
    usage_hours := Option.none, pipe_size := Option.none, motor_hp := Option.none,
    notes := Option.none, row_index := 2 }

/-- A record with a zero longitude. -/
def zeroLngRow : NormRow :=
  { zeroLatRow with lat := some (1749 / 100), lng := some 0 }

/-- A record with an empty survey_id. -/
def emptyIdRow : NormRow :=
  { zeroLatRow with survey_id := some "", lat := some (1749 / 100) }

/-- A fully valid record. -/
def goodRow : NormRow :=
  { zeroLatRow with survey_id := some "BW-01", lat := some (1749 / 100) }

/-- Witness for C10: the zero-lat, zero-lng and empty-id records are each
quarantined with the corresponding missing-field error, and a record that
does reach the valid set has no zero coordinate and no empty survey_id. -/
theorem C10_truthiness_quarantines_zero_witness :
    (zeroLatRow.lat = some 0 ∧
      (validate_row zeroLatRow).1 = false ∧
        "Missing required field: lat" ∈ (validate_row zeroLatRow).2) ∧
    (zeroLngRow.lng = some 0 ∧
      (validate_row zeroLngRow).1 = false ∧
        "Missing required field: lng" ∈ (validate_row zeroLngRow).2) ∧
    (emptyIdRow.survey_id = some "" ∧
      (validate_row emptyIdRow).1 = false ∧
        "Missing required field: survey_id" ∈ (validate_row emptyIdRow).2) ∧
    (goodRow ∈ (validate_batch [goodRow]).valid_devices ∧
      goodRow.lat ≠ some 0 ∧ goodRow.lng ≠ some 0 ∧ goodRow.survey_id ≠ some "") :=
  ⟨⟨rfl, (C10_truthiness_quarantines_zero [goodRow] zeroLatRow zeroLngRow emptyIdRow
      goodRow).1 rfl⟩,
   ⟨rfl, (C10_truthiness_quarantines_zero [goodRow] zeroLatRow zeroLngRow emptyIdRow
      goodRow).2.1 rfl⟩,
   ⟨rfl, (C10_truthiness_quarantines_zero [goodRow] zeroLatRow zeroLngRow emptyIdRow
      goodRow).2.2.1 rfl⟩,
   ⟨by decide, (C10_truthiness_quarantines_zero [goodRow] zeroLatRow zeroLngRow emptyIdRow
      goodRow).2.2.2 (by decide)⟩⟩

instance {ε α : Type} [DecidableEq ε] [DecidableEq α] : DecidableEq (Except ε α) :=
  fun x y =>
    match x, y with
    | .ok a, .ok b =>
      if h : a = b then isTrue (by rw [h]) else isFalse (by intro hh; cases hh; exact h rfl)
    | .ok _, .error _ => isFalse (by intro hh; cases hh)
    | .error _, .ok _ => isFalse (by intro hh; cases hh)
    | .error a, .error b =>
      if h : a = b then isTrue (by rw [h]) else isFalse (by intro hh; cases hh; exact h rfl)

/-- Concatenating the chunks gives back the original list: every element
lands in exactly one chunk, in the original order. -/
theorem chunks100_flatten {α : Type} (l : List α) : (chunks100 l).flatten = l := by
  induction l using chunks100.induct with
  | case1 => simp [chunks100]
  | case2 x xs ih =>
    simp only [chunks100, List.flatten_cons]
    rw [ih, List.take_append_drop]

/-- Every chunk holds at most 100 elements. -/
theorem chunks100_le {α : Type} (l : List α) :
    ∀ c ∈ chunks100 l, c.length ≤ 100 := by
  induction l using chunks100.induct with
  | case1 => simp [chunks100]
  | case2 x xs ih =>
    intro c hc
    simp only [chunks100] at hc
    rcases List.mem_cons.mp hc with h | h
    · subst h
      rw [List.length_take]
      omega
    · exact ih c h

/-- The chunk lengths sum to the original length. -/
theorem chunks100_sum_length {α : Type} (l : List α) :
    ((chunks100 l).map List.length).sum = l.length := by
  rw [← List.length_flatten, chunks100_flatten]

/-- C6 — amended claim, proved.  On any unhandled exception during a
reconciliation run (modelled as a failing `fetch_excel_data` outcome),
sync_excel_to_supabase catches the exception and returns a result dict with
status "error" carrying the exception message — the failure does not
propagate to the caller; and the function performs no SyncRun/sync_history
bookkeeping whatsoever: every database write it can ever issue targets the
`devices` table only. -/
theorem C6_sync_error_caught_no_syncrun (e : String) (dfs : List (String × Frame)) :
    sync_excel_to_supabase (.error e) = (.error e, []) ∧
    ((sync_excel_to_supabase (.ok dfs)).2.all
      (fun op => dbOpTable op == "devices")) = true := by
  constructor
  · rfl
  · unfold sync_excel_to_supabase syncTry
    cases h : collectDevices dfs with
    | error pe => simp [Except.bind, Bind.bind, Except.mapError, h]
    | ok devs =>
      by_cases hd : devs.isEmpty
      · simp [Except.bind, Bind.bind, Except.mapError, h, hd, Except.pure, Pure.pure]
      · by_cases hu : (devs.map payloadOf).isEmpty
        · simp [Except.bind, Bind.bind, Except.mapError, h, hd, hu, Except.pure, Pure.pure]
        · simp [Except.bind, Bind.bind, Except.mapError, h, hd, hu, Except.pure,
            Pure.pure, List.all_eq_true, dbOpTable]

/-- C6 — counterexample.  The claim says an unhandled exception updates the
SyncRun record to `failed` and then propagates the failure.  At the concrete
failing fetch "boom", sync_excel_to_supabase instead returns normally with a
status-"error" result dict, and its write trace is empty — no SyncRun /
sync_history record is touched (none exists anywhere in the function). -/
theorem C6_sync_error_counterexample :
    sync_excel_to_supabase (.error "boom") = (.error "boom", []) := rfl

/-- C7 — amended claim, proved.  A sync run in which normalization yields
zero valid devices finishes with status `warning` and returns without
performing any database write at all — in particular none to the `devices`
table; no `sync_history` row is created or finalized, because the function
does no SyncRun bookkeeping. -/
theorem C7_zero_devices_warning (dfs : List (String × Frame))
    (h : collectDevices dfs = .ok []) :
    sync_excel_to_supabase (.ok dfs) =
      (.warning "No valid devices found in Excel" 0, []) := by
  unfold sync_excel_to_supabase syncTry
  simp [Except.bind, Bind.bind, Except.mapError, h, Except.pure, Pure.pure]

/-- Witness for C7: the empty workbook yields zero devices, and the run
ends in the warning state with an empty write trace. -/
theorem C7_zero_devices_warning_witness :
    collectDevices [] = .ok [] ∧
    sync_excel_to_supabase (.ok []) =
      (.warning "No valid devices found in Excel" 0, []) :=
  ⟨rfl, C7_zero_devices_warning [] rfl⟩

/-- C7 — counterexample.  The claim additionally asserts that the warning
run "finalizes its sync_history row with devices_synced: 0".  At the
concrete zero-device input, the run does finish with status warning, but
its write trace is empty — there is no sync_history write (nor any other)
to finalize. -/
theorem C7_no_sync_history_counterexample :
    (sync_excel_to_supabase (.ok [])).1 = .warning "No valid devices found in Excel" 0 ∧
    (sync_excel_to_supabase (.ok [])).2 = [] :=
  ⟨rfl, rfl⟩

/-- C9 — confirmed.  When the sync engine upserts n valid devices: each
persistence payload is the device record with the transient `row_index`
removed; the payload list is split into consecutive chunks of at most 100
records, each upserted into `devices` keyed by `survey_id`; concatenating
the chunks gives back the payload list (every device in exactly one batch,
in the original order); and the reported upserted count equals n. -/
theorem C9_upsert_batches (dfs : List (String × Frame)) (devs : List NormRow)
    (h : collectDevices dfs = .ok devs) (hne : devs ≠ []) :
    sync_excel_to_supabase (.ok dfs) =
      (.success "Sync complete" devs.length (some devs.length),
       (chunks100 (devs.map payloadOf)).map
         (fun c => DbOp.upsert "devices" c "survey_id")) ∧
    (chunks100 (devs.map payloadOf)).flatten = devs.map payloadOf ∧
    (∀ c ∈ chunks100 (devs.map payloadOf), c.length ≤ 100) := by
  refine ⟨?_, chunks100_flatten _, chunks100_le _⟩
  have hd : devs.isEmpty = false := by
    cases devs with
    | nil => exact absurd rfl hne
    | cons a as => rfl
  have hu : (devs.map payloadOf).isEmpty = false := by
    cases devs with
    | nil => exact absurd rfl hne
    | cons a as => rfl
  unfold sync_excel_to_supabase syncTry
  simp only [Except.bind, Bind.bind, Except.mapError, h, hd, hu, Bool.false_eq_true,
    if_false, Except.pure, Pure.pure]
  have hsum : ((chunks100 (devs.map payloadOf)).map List.length).sum = devs.length := by
    rw [chunks100_sum_length, List.length_map]
  rw [hsum]

/-- The one-sheet workbook used as the C9 witness input. -/
def c9Frame : Frame :=
  { cols := ["Survey Code (ID)", "Latitude", "Longitude"],
    rows := [[.str "BW-01", .str "17.49", .str "78.39"]] }

/-- The single valid device the C9 witness workbook normalizes to (the
sheet-level override sets its device_type to Borewell). -/
def c9Dev : NormRow :=
  { survey_id := some "BW-01", original_name := Option.none, zone := Option.none,
    street := Option.none, device_type := some "Borewell", status := Option.none,
    lat := some (1749 / 100), lng := some (7839 / 100), houses := Option.none,
    usage_hours := Option.none, pipe_size := Option.none, motor_hp := Option.none,
    notes := Option.none, row_index := 2 }

/-- Witness for C9: a workbook with one Borewell sheet holding one valid
row syncs with one upsert chunk of its single payload and reports one
device upserted. -/
theorem C9_upsert_batches_witness :
    collectDevices [("Borewell", c9Frame)] = .ok [c9Dev] ∧
    ([c9Dev] ≠ ([] : List NormRow)) ∧
    sync_excel_to_supabase (.ok [("Borewell", c9Frame)]) =
      (.success "Sync complete" 1 (some 1),
       [DbOp.upsert "devices" [payloadOf c9Dev] "survey_id"]) := by
  refine ⟨by decide, by decide, ?_⟩
  have h := (C9_upsert_batches [("Borewell", c9Frame)] [c9Dev] (by decide) (by decide)).1
  rw [h]
  simp [chunks100]

/-- C8 — confirmed.  When the remote fetch fails (e.g. times out),
get_survey_data raises the fetch error — re-wrapped as HTTPException(500)
— and the cache is left exactly as it was: on a cache miss nothing is
stored for the requested sheet, and a pre-existing (stale-but-present)
cached response for a sheet is simply returned, untouched and unevicted,
without the fetch ever being consulted. -/
theorem C8_fetch_failure_leaves_cache (e : String) (include_invalid : Bool)
    (now : String) (cache : Cache) (sheetA sheetB : String) :
    (cacheGet cache ("sheet:" ++ sheetA) = Option.none →
      get_survey_data (.error e) sheetA include_invalid now cache =
        (.error (.http { status := 500, detail := e }), cache)) ∧
    (∀ r : SurveyResponse,
      cacheGet cache ("sheet:" ++ sheetB) = some (.resp r) →
      get_survey_data (.error e) sheetB include_invalid now cache =
        (.ok (if include_invalid then r else dropInvalid r), cache)) := by
  constructor
  · intro hmiss
    unfold get_survey_data
    dsimp only
    rw [hmiss]
    rfl
  · intro r hhit
    unfold get_survey_data
    dsimp only
    rw [hhit]

/-- The stale cached response used by the C8 witness. -/
def c8Resp : SurveyResponse :=
  { devices := [goodRow], invalid_devices := some [],
    metadata :=
      { sheet_name := "Borewell", total_rows := 1, valid_count := 1,
        invalid_count := 0, validation_rate := 100, error_breakdown := [],
        header_validation := Option.none, cached_at := "2026-01-01T00:00:00" } }

/-- The cache state used by the C8 witness: one stale-but-present sheet. -/
def c8Cache : Cache := [("sheet:Borewell", CacheVal.resp c8Resp)]

/-- Witness for C8: with the fetch failing ("timeout"), the uncached sheet
"All" raises HTTPException(500) leaving the cache unchanged, and the cached
sheet "Borewell" is served stale from the cache, also unchanged. -/
theorem C8_fetch_failure_leaves_cache_witness :
    (cacheGet c8Cache "sheet:All" = Option.none ∧
      get_survey_data (.error "timeout") "All" false "now" c8Cache =
        (.error (.http { status := 500, detail := "timeout" }), c8Cache)) ∧
    (cacheGet c8Cache "sheet:Borewell" = some (.resp c8Resp) ∧
      get_survey_data (.error "timeout") "Borewell" false "now" c8Cache =
        (.ok (dropInvalid c8Resp), c8Cache)) := by
  refine ⟨⟨by decide, ?_⟩, ⟨by decide, ?_⟩⟩
  · exact (C8_fetch_failure_leaves_cache "timeout" false "now" c8Cache "All"
      "Borewell").1 (by decide)
  · have h := (C8_fetch_failure_leaves_cache "timeout" false "now" c8Cache "All"
      "Borewell").2 c8Resp (by decide)
    simpa using h

end Rudraram
